import Mathlib

/-!
Verification of the AudioPlayer component (src/components/AudioPlayer.tsx).

The component is a React view over six local state cells together with a set of
event handlers that talk to three platform capabilities (media playback, system
volume, session configuration).  We embed the handlers as pure functions from the
local state (plus the relevant platform inputs and call outcomes) to the new local
state together with the list of platform requests they issue.  Numeric millisecond
quantities are embedded as Nat; volume levels as rationals.  Handle identities are
embedded as Nat.
-/

namespace AudioPlayer

/-- Raw playback status snapshot delivered by the platform to the status
subscriber.  The fields mirror the properties read by the component:
isLoaded, durationMillis, positionMillis, isPlaying.  The two millisecond
fields are optional: none embeds a missing (undefined or null) field of the
JavaScript object. -/
structure PlaybackStatus where
  isLoaded : Bool
  durationMillis : Option Nat
  positionMillis : Option Nat
  isPlaying : Bool
  deriving DecidableEq

/-- Local component state: the six useState cells of AudioPlayer.
sound is the identity of the owned media handle, when one is owned. -/
structure UiState where
  sound : Option Nat
  isPlaying : Bool
  duration : Nat
  position : Nat
  volume : ℚ
  isSeeking : Bool
  deriving DecidableEq

/-- Initial values of the six useState cells at mount:
useState() for sound, useState(false), useState(0), useState(0),
useState(1.0), useState(false). -/
def initialState : UiState :=
  { sound := none
    isPlaying := false
    duration := 0
    position := 0
    volume := 1
    isSeeking := false }

/-- Embedding of the JavaScript expression x || 0 applied to an optional numeric
field: a missing (undefined or null) field and the value 0 are both falsy, so
both give 0; any other number passes through. -/
def jsOrZero : Option Nat → Nat
  | none => 0
  | some n => n

/-- Body of the status subscriber onPlaybackStatusUpdate as the platform runs
it.  The throttled function is re-created on every render, but the only instance
the platform ever holds is the one passed to createAsync inside loadAudio, and
setOnPlaybackStatusUpdate is never called afterwards; that closure therefore
carries the isSeeking value of the render in which the load effect ran
(capturedIsSeeking below), not the delivery-time value.  The setters, in
contrast, write to the current cells, so the result updates the delivery-time
state st.  When the guard fails the state is returned exactly unchanged,
retaining nothing for later (no queue). -/
def onPlaybackStatusUpdate (capturedIsSeeking : Bool) (st : UiState)
    (status : PlaybackStatus) : UiState :=
  if status.isLoaded && !capturedIsSeeking then
    { st with
      duration := jsOrZero status.durationMillis
      position := jsOrZero status.positionMillis
      isPlaying := status.isPlaying }
  else st

/-- handleSlidingStart: entering the user-drag state. -/
def handleSlidingStart (st : UiState) : UiState :=
  { st with isSeeking := true }

/-- Requests the component can issue to the owned media handle. -/
inductive SoundCmd where
  | play
  | pause
  | seekTo (positionMs : Nat)
  deriving DecidableEq

/-- handlePlayPause: returns early when no handle is owned; otherwise requests
pause when isPlaying holds and play otherwise.  The try block contains nothing
after the awaited request, and the catch block only logs, so the local state is
returned unchanged in every case. -/
def handlePlayPause (st : UiState) : UiState × Option SoundCmd :=
  match st.sound with
  | none => (st, none)
  | some _ => (st, some (if st.isPlaying then SoundCmd.pause else SoundCmd.play))

/-- handleSlidingComplete value: returns early when no handle is owned; otherwise
issues setPositionAsync value, and when that call succeeds (seekOk) sets position
to value and clears isSeeking.  When the call fails, the catch block only logs,
so the state is unchanged and isSeeking stays set. -/
def handleSlidingComplete (st : UiState) (value : Nat) (seekOk : Bool) :
    UiState × List SoundCmd :=
  match st.sound with
  | none => (st, [])
  | some _ =>
    if seekOk then
      ({ st with position := value, isSeeking := false }, [SoundCmd.seekTo value])
    else (st, [SoundCmd.seekTo value])

/-- The two external volume targets the component writes to. -/
inductive VolTarget where
  | system
  | resource
  deriving DecidableEq

/-- External volume levels: the system output level and the level of the loaded
media resource. -/
structure VolEnv where
  systemLevel : ℚ
  resourceLevel : ℚ
  deriving DecidableEq

/-- handleVolumeChange value: one try block running, in order,
VolumeController.change(value), then (when a handle is owned) the awaited
sound.setVolumeAsync(value), then setVolume(value).  A throw anywhere jumps to
the single catch, which only logs.  sysOk and resOk are the outcomes of the two
external calls; the returned list records which targets were attempted, in
order. -/
def handleVolumeChange (st : UiState) (env : VolEnv) (v : ℚ) (sysOk resOk : Bool) :
    UiState × VolEnv × List VolTarget :=
  if sysOk then
    match st.sound with
    | some _ =>
      if resOk then
        ({ st with volume := v },
         { env with systemLevel := v, resourceLevel := v },
         [VolTarget.system, VolTarget.resource])
      else
        (st, { env with systemLevel := v },
         [VolTarget.system, VolTarget.resource])
    | none =>
      ({ st with volume := v }, { env with systemLevel := v }, [VolTarget.system])
  else (st, env, [VolTarget.system])

/-- Handler of the VolumeController.onChange subscription: setVolume(v) first,
then, when a handle is owned, sound?.setVolumeAsync(v) with a catch that only
logs.  resOk is the outcome of the resource call; the returned list records the
attempted targets. -/
def volumeListenerHandler (st : UiState) (env : VolEnv) (v : ℚ) (resOk : Bool) :
    UiState × VolEnv × List VolTarget :=
  match st.sound with
  | some _ =>
    if resOk then
      ({ st with volume := v }, { env with resourceLevel := v }, [VolTarget.resource])
    else ({ st with volume := v }, env, [VolTarget.resource])
  | none => ({ st with volume := v }, env, [])

/-- Runs the volume-change subscription over a list of notifications, each a
level together with the outcome of the mirrored resource call.  The handler is
invoked once per notification (a failed resource call is caught inside the
handler, so the subscription keeps running); the per-notification attempt lists
are collected in order. -/
def runVolumeListener : UiState → VolEnv → List (ℚ × Bool) →
    UiState × VolEnv × List (List VolTarget)
  | st, env, [] => (st, env, [])
  | st, env, (v, ok) :: rest =>
    let r := volumeListenerHandler st env v ok
    let r2 := runVolumeListener r.1 r.2.1 rest
    (r2.1, r2.2.1, r.2.2 :: r2.2.2)

/-- Embedding of the JavaScript call s.padStart(2, "0"): pad on the left with
the fill character up to length 2. -/
def padStart2 (s : String) : String :=
  if s.length < 2 then String.mk (List.replicate (2 - s.length) '0') ++ s else s

/-- formatTime: totalSeconds = floor(ms / 1000), minutes = floor(totalSeconds / 60),
seconds = totalSeconds mod 60, rendered as minutes, a colon, and seconds padded
to two digits. -/
def formatTime (milliseconds : Nat) : String :=
  let totalSeconds := milliseconds / 1000
  let minutes := totalSeconds / 60
  let seconds := totalSeconds % 60
  toString minutes ++ ":" ++ padStart2 (toString seconds)

/-- C5: formatTime renders floor(ms / 60000) minutes, a colon, and the remaining
whole seconds padded to two digits; in particular 65000 gives "1:05", 0 gives
"0:00", and 599000 gives "9:59". -/
theorem c5_formatTime_spec :
    formatTime 65000 = "1:05" ∧ formatTime 0 = "0:00" ∧ formatTime 599000 = "9:59" ∧
    ∀ ms : Nat, formatTime ms =
      toString (ms / 60000) ++ ":" ++ padStart2 (toString (ms % 60000 / 1000)) := by
  refine ⟨rfl, rfl, rfl, fun ms => ?_⟩
  have h1 : ms / 1000 / 60 = ms / 60000 := by omega
  have h2 : ms / 1000 % 60 = ms % 60000 / 1000 := by omega
  simp only [formatTime, h1, h2]

/-- C9: at mount, before any platform callback fires, no handle is owned,
isPlaying is false, duration and position are 0, volume is 1, and isSeeking is
false. -/
theorem c9_initial_state :
    initialState.sound = none ∧ initialState.isPlaying = false ∧
    initialState.duration = 0 ∧ initialState.position = 0 ∧
    initialState.volume = 1 ∧ initialState.isSeeking = false :=
  ⟨rfl, rfl, rfl, rfl, rfl, rfl⟩

/-- State after a load has completed while the component is idle: a handle is
owned and isSeeking is false.  This is the render whose isSeeking value the
registered status callback captures. -/
def loadedState : UiState :=
  { initialState with sound := some 0 }

/-- State during a user drag that started after the load: handleSlidingStart has
set isSeeking, but the platform still holds the callback registered at load
time. -/
def dragState : UiState :=
  handleSlidingStart loadedState

/-- C1 fails as stated: the status callback is registered once, at createAsync,
and its closure captures the isSeeking of the load-time render (false in
loadedState); handleSlidingStart later sets the delivery-time isSeeking to true,
yet a delivery through the registered callback still passes the stale guard and
mutates position and isPlaying during the drag. -/
theorem c1_counterexample :
    dragState.isSeeking = true ∧
    loadedState.isSeeking = false ∧
    dragState.position = 0 ∧
    dragState.isPlaying = false ∧
    (onPlaybackStatusUpdate loadedState.isSeeking dragState
      { isLoaded := true, durationMillis := some 60000,
        positionMillis := some 2000, isPlaying := true }).position = 2000 ∧
    (onPlaybackStatusUpdate loadedState.isSeeking dragState
      { isLoaded := true, durationMillis := some 60000,
        positionMillis := some 2000, isPlaying := true }).isPlaying = true :=
  ⟨rfl, rfl, rfl, rfl, rfl, rfl⟩

/-- C1 amended: a delivered status update mutates UI state only when the status
reports loaded and the isSeeking value captured by the subscriber closure at
registration (load) time is false; a delivery failing that guard leaves the
state exactly unchanged, dropped rather than queued.  The guard does not consult
the delivery-time isSeeking: with a false captured value the update applies
whatever the current isSeeking is, so updates arriving during a drag that began
after the load still mutate position and isPlaying. -/
theorem c1_status_guard_amended (captured : Bool) (st : UiState)
    (status : PlaybackStatus) :
    (captured = true → onPlaybackStatusUpdate captured st status = st) ∧
    (status.isLoaded = false → onPlaybackStatusUpdate captured st status = st) ∧
    (onPlaybackStatusUpdate captured st status ≠ st →
      status.isLoaded = true ∧ captured = false) ∧
    (captured = false → status.isLoaded = true →
      (onPlaybackStatusUpdate captured st status).position =
        jsOrZero status.positionMillis ∧
      (onPlaybackStatusUpdate captured st status).isPlaying =
        status.isPlaying) := by
  cases hL : status.isLoaded <;> cases captured <;>
    simp [onPlaybackStatusUpdate, hL]

theorem c1_status_guard_amended_witness :
    onPlaybackStatusUpdate true { initialState with isSeeking := true }
      { isLoaded := true, durationMillis := some 5000,
        positionMillis := some 1000, isPlaying := true } =
      { initialState with isSeeking := true } :=
  (c1_status_guard_amended true { initialState with isSeeking := true }
    { isLoaded := true, durationMillis := some 5000,
      positionMillis := some 1000, isPlaying := true }).1 rfl

/-- C10: when a status update is applied, the duration and position written to
UI state are the raw optional fields with default 0, so a missing field and a
raw 0 both land as 0 and the stored values are always defined numbers.  The
captured guard value only decides whether the body runs, never what it
writes. -/
theorem c10_zero_coalescing (captured : Bool) (st : UiState)
    (status : PlaybackStatus)
    (hL : status.isLoaded = true) (hS : captured = false) :
    (onPlaybackStatusUpdate captured st status).duration =
      status.durationMillis.getD 0 ∧
    (onPlaybackStatusUpdate captured st status).position =
      status.positionMillis.getD 0 ∧
    ((status.durationMillis = none ∨ status.durationMillis = some 0) →
      (onPlaybackStatusUpdate captured st status).duration = 0) ∧
    ((status.positionMillis = none ∨ status.positionMillis = some 0) →
      (onPlaybackStatusUpdate captured st status).position = 0) := by
  cases hd : status.durationMillis <;> cases hp : status.positionMillis <;>
    simp [onPlaybackStatusUpdate, jsOrZero, hL, hS, hd, hp]

theorem c10_zero_coalescing_witness :
    (onPlaybackStatusUpdate false initialState
      { isLoaded := true, durationMillis := none,
        positionMillis := some 0, isPlaying := false }).duration = 0 :=
  (c10_zero_coalescing false initialState
    { isLoaded := true, durationMillis := none,
      positionMillis := some 0, isPlaying := false } rfl rfl).2.2.1 (Or.inl rfl)

/-- C6: the play and pause toggle is a no-op when no handle is owned; when one is
owned it requests pause exactly when isPlaying holds and play otherwise; and in
every case the local state, in particular isPlaying, is returned unchanged. -/
theorem c6_play_pause_toggle (st : UiState) :
    (handlePlayPause st).1 = st ∧
    (st.sound = none → (handlePlayPause st).2 = none) ∧
    (∀ h : Nat, st.sound = some h →
      (handlePlayPause st).2 =
        some (if st.isPlaying then SoundCmd.pause else SoundCmd.play)) := by
  cases hs : st.sound <;> simp [handlePlayPause, hs]

theorem c6_play_pause_toggle_witness :
    (handlePlayPause initialState).2 = none :=
  (c6_play_pause_toggle initialState).2.1 rfl

/-- C7: the seek commit is a no-op when no handle is owned; when one is owned it
issues a seek request to the target value, and when that request succeeds it
sets the local position to the value and clears isSeeking. -/
theorem c7_seek_commit (st : UiState) (value : Nat) (seekOk : Bool) :
    (st.sound = none → handleSlidingComplete st value seekOk = (st, [])) ∧
    (∀ h : Nat, st.sound = some h →
      (handleSlidingComplete st value seekOk).2 = [SoundCmd.seekTo value]) ∧
    (∀ h : Nat, st.sound = some h → seekOk = true →
      (handleSlidingComplete st value seekOk).1 =
        { st with position := value, isSeeking := false }) := by
  cases hs : st.sound <;> cases seekOk <;> simp [handleSlidingComplete, hs]

theorem c7_seek_commit_witness :
    (handleSlidingComplete { initialState with sound := some 0 } 1234 true).1 =
      { initialState with sound := some 0, position := 1234, isSeeking := false } :=
  (c7_seek_commit { initialState with sound := some 0 } 1234 true).2.2 0 rfl rfl

/-- C3 fails as stated: both volume calls sit in one try block, so when the
system-level call throws with a handle owned, the resource-level call is never
attempted, the resource level keeps its old value, and the local volume is not
updated either. -/
theorem c3_counterexample :
    VolTarget.resource ∉
      (handleVolumeChange { initialState with sound := some 0 }
        { systemLevel := 1, resourceLevel := 1 } (2/5) false true).2.2 ∧
    (handleVolumeChange { initialState with sound := some 0 }
        { systemLevel := 1, resourceLevel := 1 } (2/5) false true).2.1.resourceLevel
      ≠ 2/5 ∧
    (handleVolumeChange { initialState with sound := some 0 }
        { systemLevel := 1, resourceLevel := 1 } (2/5) false true).1.volume
      ≠ 2/5 := by
  refine ⟨?_, ?_, ?_⟩ <;> simp [handleVolumeChange, initialState] <;> norm_num

/-- C3 amended: the commit attempts the system level first and then, when a
handle is owned, the resource level; a failure of the resource call still leaves
the system level set to v (and the resource attempt made), but a failure of the
system call ends the handler, so the resource call is not attempted and neither
level nor the local volume changes; when all attempted calls succeed, local
volume and both owned targets end at v. -/
theorem c3_volume_commit_amended (st : UiState) (env : VolEnv) (v : ℚ)
    (sysOk resOk : Bool) :
    VolTarget.system ∈ (handleVolumeChange st env v sysOk resOk).2.2 ∧
    (sysOk = true →
      (handleVolumeChange st env v sysOk resOk).2.1.systemLevel = v) ∧
    (sysOk = true → st.sound ≠ none →
      VolTarget.resource ∈ (handleVolumeChange st env v sysOk resOk).2.2) ∧
    (sysOk = false →
      handleVolumeChange st env v sysOk resOk = (st, env, [VolTarget.system])) ∧
    (sysOk = true → resOk = true →
      (handleVolumeChange st env v sysOk resOk).1.volume = v ∧
      (st.sound ≠ none →
        (handleVolumeChange st env v sysOk resOk).2.1.resourceLevel = v)) := by
  cases hs : st.sound <;> cases sysOk <;> cases resOk <;>
    simp [handleVolumeChange, hs]

theorem c3_volume_commit_amended_witness :
    (handleVolumeChange { initialState with sound := some 0 }
      { systemLevel := 1, resourceLevel := 1 } (2/5) true true).2.1.systemLevel
      = 2/5 :=
  (c3_volume_commit_amended { initialState with sound := some 0 }
    { systemLevel := 1, resourceLevel := 1 } (2/5) true true).2.1 rfl

lemma volumeListenerHandler_sound (st : UiState) (env : VolEnv) (v : ℚ)
    (ok : Bool) : (volumeListenerHandler st env v ok).1.sound = st.sound := by
  cases hs : st.sound <;> cases ok <;> simp [volumeListenerHandler, hs]

lemma runVolumeListener_volume (ns : List (ℚ × Bool)) :
    ∀ (st : UiState) (env : VolEnv) (v : ℚ) (ok : Bool),
      (runVolumeListener st env (ns ++ [(v, ok)])).1.volume = v := by
  induction ns with
  | nil =>
    intro st env v ok
    cases hs : st.sound <;> cases ok <;>
      simp [runVolumeListener, volumeListenerHandler, hs]
  | cons p rest ih =>
    intro st env v ok
    obtain ⟨w, okw⟩ := p
    simpa [runVolumeListener] using ih _ _ v ok

lemma runVolumeListener_length (l : List (ℚ × Bool)) :
    ∀ (st : UiState) (env : VolEnv),
      (runVolumeListener st env l).2.2.length = l.length := by
  induction l with
  | nil => intro st env; simp [runVolumeListener]
  | cons p rest ih =>
    intro st env
    obtain ⟨w, okw⟩ := p
    simp [runVolumeListener, ih]

lemma runVolumeListener_lastAttempt (ns : List (ℚ × Bool)) :
    ∀ (st : UiState) (env : VolEnv) (v : ℚ) (ok : Bool), st.sound ≠ none →
      ∃ front, (runVolumeListener st env (ns ++ [(v, ok)])).2.2 =
        front ++ [[VolTarget.resource]] := by
  induction ns with
  | nil =>
    intro st env v ok hs
    obtain ⟨h, hh⟩ := Option.ne_none_iff_exists'.mp hs
    cases ok <;>
      exact ⟨[], by simp [runVolumeListener, volumeListenerHandler, hh]⟩
  | cons p rest ih =>
    intro st env v ok hs
    obtain ⟨w, okw⟩ := p
    have hs2 : (volumeListenerHandler st env w okw).1.sound ≠ none := by
      rw [volumeListenerHandler_sound]; exact hs
    obtain ⟨front, hfront⟩ := ih (volumeListenerHandler st env w okw).1
      (volumeListenerHandler st env w okw).2.1 v ok hs2
    exact ⟨(volumeListenerHandler st env w okw).2.2 :: front, by
      simp [runVolumeListener, hfront]⟩

/-- C8: an external volume notification with level v writes v to the local
volume state and, when a handle is owned, issues the mirrored resource update;
a failed resource call changes nothing beyond the local volume write; and over
any sequence of earlier notifications with arbitrary failures, the final
notification is still handled in full: the final local volume is its level,
every notification produced exactly one handler run, and with a handle owned
the last attempt list is exactly the mirrored resource call. -/
theorem c8_volume_bridge (st : UiState) (env : VolEnv) (v : ℚ) (ok : Bool)
    (ns : List (ℚ × Bool)) :
    (volumeListenerHandler st env v ok).1.volume = v ∧
    (st.sound ≠ none →
      (volumeListenerHandler st env v ok).2.2 = [VolTarget.resource]) ∧
    (ok = true → st.sound ≠ none →
      (volumeListenerHandler st env v ok).2.1.resourceLevel = v) ∧
    (ok = false → (volumeListenerHandler st env v ok).2.1 = env ∧
      (volumeListenerHandler st env v ok).1 = { st with volume := v }) ∧
    (runVolumeListener st env (ns ++ [(v, ok)])).1.volume = v ∧
    (runVolumeListener st env (ns ++ [(v, ok)])).2.2.length = ns.length + 1 ∧
    (st.sound ≠ none → ∃ front,
      (runVolumeListener st env (ns ++ [(v, ok)])).2.2 =
        front ++ [[VolTarget.resource]]) := by
  refine ⟨?_, ?_, ?_, ?_, runVolumeListener_volume ns st env v ok, ?_, ?_⟩
  · cases hs : st.sound <;> cases ok <;> simp [volumeListenerHandler, hs]
  · intro hs
    obtain ⟨h, hh⟩ := Option.ne_none_iff_exists'.mp hs
    cases ok <;> simp [volumeListenerHandler, hh]
  · intro hok hs
    obtain ⟨h, hh⟩ := Option.ne_none_iff_exists'.mp hs
    simp [volumeListenerHandler, hh, hok]
  · intro hok
    cases hs : st.sound <;> simp [volumeListenerHandler, hs, hok]
  · simp [runVolumeListener_length]
  · exact runVolumeListener_lastAttempt ns st env v ok

theorem c8_volume_bridge_witness :
    (volumeListenerHandler { initialState with sound := some 0 }
      { systemLevel := 1, resourceLevel := 1 } (1/2) true).2.1.resourceLevel
      = 1/2 :=
  (c8_volume_bridge { initialState with sound := some 0 }
    { systemLevel := 1, resourceLevel := 1 } (1/2) true []).2.2.1 rfl
    (by simp)

/-- Phase of one in-flight loadAudio invocation, which suspends at its awaits:
either awaiting unloadAsync of the previously owned handle, or awaiting
createAsync of the new resource.  The synchronous prefix of loadAudio (the check
of sound and the call that starts the first awaited operation) runs at effect
time, before the first suspension. -/
inductive LoadPhase where
  | unloading (h : Nat)
  | creating
  deriving DecidableEq

/-- State of the source-loading subsystem: the sound state cell, the set of
handles the platform currently holds loaded (in load order), a fresh-handle
counter, and the in-flight loadAudio invocations in start order.  The locator
string itself does not influence handle bookkeeping (any truthy locator runs the
effect), so it is not carried. -/
structure LoaderSys where
  sound : Option Nat
  loaded : List Nat
  nextId : Nat
  tasks : List LoadPhase
  deriving DecidableEq

/-- Events of the source-loading subsystem.  uriChange runs the effect cleanup
(the fire-and-forget unload of the owned handle, modelled as taking effect at
this step) followed by the synchronous prefix of a new loadAudio invocation;
unloadDone i resolves the unload awaited by invocation i, after which that
invocation starts createAsync; createDone i resolves the createAsync awaited by
invocation i, loading a fresh handle and storing it in sound; unmount runs the
cleanup alone. -/
inductive LoaderEv where
  | uriChange
  | unloadDone (i : Nat)
  | createDone (i : Nat)
  | unmount
  deriving DecidableEq

/-- One step of the source-loading subsystem.  Events that do not match an
in-flight invocation in the right phase change nothing. -/
def loaderStep (s : LoaderSys) : LoaderEv → LoaderSys
  | LoaderEv.uriChange =>
    match s.sound with
    | some h =>
      { s with loaded := s.loaded.erase h,
               tasks := s.tasks ++ [LoadPhase.unloading h] }
    | none => { s with tasks := s.tasks ++ [LoadPhase.creating] }
  | LoaderEv.unloadDone i =>
    match s.tasks[i]? with
    | some (LoadPhase.unloading h) =>
      { s with loaded := s.loaded.erase h,
               tasks := s.tasks.set i LoadPhase.creating }
    | _ => s
  | LoaderEv.createDone i =>
    match s.tasks[i]? with
    | some LoadPhase.creating =>
      { s with loaded := s.loaded ++ [s.nextId], sound := some s.nextId,
               nextId := s.nextId + 1, tasks := s.tasks.eraseIdx i }
    | _ => s
  | LoaderEv.unmount =>
    match s.sound with
    | some h => { s with loaded := s.loaded.erase h }
    | none => s

/-- Runs a list of loader events. -/
def loaderRun (s : LoaderSys) : List LoaderEv → LoaderSys
  | [] => s
  | e :: es => loaderRun (loaderStep s e) es

/-- All states visited while running a list of loader events, the initial and
final states included. -/
def loaderTrace (s : LoaderSys) : List LoaderEv → List LoaderSys
  | [] => [s]
  | e :: es => s :: loaderTrace (loaderStep s e) es

/-- Loader state at mount: no handle owned, nothing loaded, no invocation in
flight. -/
def loaderInit : LoaderSys :=
  { sound := none, loaded := [], nextId := 0, tasks := [] }

/-- Event order of one loadAudio invocation that runs to completion with no
interleaving: the effect fires, the awaited unload (present exactly when a
handle was owned) completes, then the create completes. -/
def seqLoadEvents (s : LoaderSys) : List LoaderEv :=
  match s.sound with
  | some _ => [LoaderEv.uriChange, LoaderEv.unloadDone 0, LoaderEv.createDone 0]
  | none => [LoaderEv.uriChange, LoaderEv.createDone 0]

/-- All states visited while performing n consecutive locator changes, each of
whose loads runs to completion before the next change. -/
def seqRunStates (s : LoaderSys) : Nat → List LoaderSys
  | 0 => [s]
  | n + 1 =>
    loaderTrace s (seqLoadEvents s) ++
      seqRunStates (loaderRun s (seqLoadEvents s)) n

/-- Invariant between completed loads: no invocation in flight, and the loaded
handles are exactly the owned one (or none). -/
def LoaderInv (s : LoaderSys) : Prop :=
  s.tasks = [] ∧
    ((s.sound = none ∧ s.loaded = []) ∨
      ∃ h, s.sound = some h ∧ s.loaded = [h])

/-- C2 fails as stated: when the locator changes again while the first load is
still awaiting createAsync, the second loadAudio invocation sees no owned handle
(setSound has not run yet), performs no unload, and starts a second createAsync;
when both resolve, two handles are loaded at the same instant and the first is
never unloaded. -/
theorem c2_counterexample :
    ¬ ((loaderRun loaderInit
          [LoaderEv.uriChange, LoaderEv.uriChange,
           LoaderEv.createDone 0, LoaderEv.createDone 0]).loaded.length ≤ 1) ∧
    (loaderRun loaderInit
        [LoaderEv.uriChange, LoaderEv.uriChange,
         LoaderEv.createDone 0, LoaderEv.createDone 0]).loaded = [0, 1] := by
  decide

lemma loaderInv_init : LoaderInv loaderInit :=
  ⟨rfl, Or.inl ⟨rfl, rfl⟩⟩

lemma seq_round (s : LoaderSys) (hInv : LoaderInv s) :
    (∀ st ∈ loaderTrace s (seqLoadEvents s), st.loaded.length ≤ 1) ∧
    LoaderInv (loaderRun s (seqLoadEvents s)) := by
  obtain ⟨ht, hc⟩ := hInv
  rcases hc with ⟨h1, h2⟩ | ⟨h, h1, h2⟩
  · constructor
    · intro st hst
      simp [seqLoadEvents, loaderTrace, loaderStep, h1, h2, ht] at hst
      rcases hst with rfl | rfl | rfl <;> simp [h1, h2, ht]
    · simp [seqLoadEvents, loaderRun, loaderStep, LoaderInv, h1, h2, ht]
  · constructor
    · intro st hst
      simp [seqLoadEvents, loaderTrace, loaderStep, List.erase_cons_head,
        h1, h2, ht] at hst
      rcases hst with rfl | rfl | rfl | rfl <;> simp [h1, h2, ht]
    · simp [seqLoadEvents, loaderRun, loaderStep, LoaderInv,
        List.erase_cons_head, h1, h2, ht]

lemma seq_states_le (n : Nat) :
    ∀ s : LoaderSys, LoaderInv s →
      ∀ st ∈ seqRunStates s n, st.loaded.length ≤ 1 := by
  induction n with
  | zero =>
    intro s hs st hst
    simp [seqRunStates] at hst
    subst hst
    rcases hs.2 with ⟨_, h2⟩ | ⟨_, _, h2⟩ <;> simp [h2]
  | succ n ih =>
    intro s hs st hst
    simp only [seqRunStates, List.mem_append] at hst
    rcases hst with hst | hst
    · exact (seq_round s hs).1 st hst
    · exact ih _ (seq_round s hs).2 st hst

lemma unmount_length_le (s : LoaderSys) :
    (loaderStep s LoaderEv.unmount).loaded.length ≤ s.loaded.length := by
  cases hs : s.sound <;> simp [loaderStep, hs]
  exact (List.erase_sublist _ _).length_le

/-- C2 amended: within one loadAudio invocation the unload of the previously
owned handle completes before the new load can complete (an invocation still in
its unloading phase ignores a create completion), and when every load runs to
completion before the next locator change, at most one handle is loaded at every
intermediate instant, including after a final unmount step; but a locator change
arriving while a load is still in flight can leave two handles loaded at once. -/
theorem c2_single_handle_amended :
    (∀ (s : LoaderSys) (i h : Nat),
      s.tasks[i]? = some (LoadPhase.unloading h) →
      loaderStep s (LoaderEv.createDone i) = s) ∧
    (∀ n : Nat, ∀ st ∈ seqRunStates loaderInit n,
      st.loaded.length ≤ 1 ∧
      (loaderStep st LoaderEv.unmount).loaded.length ≤ 1) := by
  constructor
  · intro s i h hget
    simp [loaderStep, hget]
  · intro n st hst
    have h1 := seq_states_le n loaderInit loaderInv_init st hst
    exact ⟨h1, le_trans (unmount_length_le st) h1⟩

theorem c2_single_handle_amended_witness :
    loaderInit.loaded.length ≤ 1 ∧
    (loaderStep loaderInit LoaderEv.unmount).loaded.length ≤ 1 :=
  c2_single_handle_amended.2 0 loaderInit (by simp [seqRunStates])

end AudioPlayer
